import Mathlib

/-!
Shallow embedding of `internal/service/monitor_service.go` from
veron-baranige/springboot-app-monitor.

Modelling choices:
* Go `float64` values (CPU usage, CPU count, memory figures) are modelled as
  exact rationals `ℚ`; `uint32` thresholds as `ℕ` (no arithmetic overflows
  them, they are only cast to `float64` for comparison).
* The external fetch capabilities `monitor.GetHealthStatus` and
  `monitor.GetMetrics` are effectful network calls; their results are passed
  in as `Except` values.  Whether the metrics fetch was reached by control
  flow is recorded explicitly as a `Bool` in the result of `monitorTarget`.
* `handleAlert` performs side effects (desktop notification, alert sound,
  e-mail); it is modelled as the list of external actions it invokes, in
  order.  Whether the critical `notify-send` command succeeded (which gates
  the alert sound) is an input.
* The scheduler/goroutine machinery is modelled per cycle: one cycle maps
  each configured URL to the evaluation of that target; the connectivity
  probe result is an input `Bool`.
* `time.Now().Format("15:04")` is modelled by a `String` input `now`.
-/

namespace SpringBootAppMonitor

/-- Modelled from the spec: the `internal/monitor` package (not under the
sources examined here) exposes the health status value `Up` reported by a
healthy Spring Boot actuator endpoint; any other string is a non-Up status. -/
def Up : String := "UP"

/-- Modelled from the spec: the error taxonomy of the health fetch capability
of the `internal/monitor` package — `ErrNoActuatorSupport`,
`ErrNotResponding`, or any other error (carrying its rendered text). -/
inductive HealthError where
  | errNoActuatorSupport
  | errNotResponding
  | otherErr (text : String)
deriving DecidableEq, Repr

/-- The metrics snapshot returned by the metrics fetch capability
(`CpuUsage`, `CpuCount`, `MemoryUsed`, `MemoryTotal`, all Go `float64`). -/
structure Metrics where
  CpuUsage : ℚ
  CpuCount : ℚ
  MemoryUsed : ℚ
  MemoryTotal : ℚ
deriving DecidableEq, Repr

/-- `MonitorConfig` from `monitor_service.go` (the `MailDialer` handle is an
opaque external transport and is omitted; `MonitorInterval` is in
nanoseconds). -/
structure MonitorConfig where
  AppLogoPath : String
  TestConnectivityUrl : String
  AlertSoundPath : String
  UrlsToMonitor : List String
  MonitorInterval : Nat
  CpuUsageWarnThreshold : Nat
  JvmUsageWarnThreshold : Nat
  EmailReceipients : List String
  IsDesktopAlertsEnabled : Bool
  IsEmailAlertsEnabled : Bool
deriving DecidableEq, Repr

/-- One `handleAlert` invocation: the target, the rendered message, and the
two routing flags, exactly the arguments of `ms.handleAlert(...)`. -/
structure AlertDecision where
  target : String
  msgContent : String
  isAlert : Bool
  sendMail : Bool
deriving DecidableEq, Repr

/-- An external side-effecting action performed by `handleAlert`. -/
inductive DispatchAction where
  | notifySend (urgency icon title body : String)
  | playAlertSound (path : String)
  | sendEmail (recipients : List String) (subject body : String)
deriving DecidableEq, Repr

/-- Round the fraction `a / b` (with `b > 0`) to the nearest integer, ties to
even — the rounding Go's `fmt` `%.Nf` verbs apply to the (here exactly
represented) value.  `f` is the floor of `a / b` and `r2` is twice the
remainder, so `r2 < b` means the fractional part is below one half. -/
def roundHalfEven (a b : ℤ) : ℤ :=
  let f := Int.fdiv a b
  let r2 := 2 * (a - f * b)
  if r2 < b then f
  else if b < r2 then f + 1
  else if f % 2 = 0 then f else f + 1

/-- Fixed-point rendering of a rational with `digits` fractional digits,
mirroring `fmt.Sprintf` with `%.2f` / `%.1f`: the value `q * 10 ^ digits =
q.num * 10 ^ digits / q.den` is rounded to the integer `n` and rendered with
a decimal point inserted. -/
def fmtFixed (digits : Nat) (q : ℚ) : String :=
  let n := roundHalfEven (q.num * (10 : ℤ) ^ digits) (q.den : ℤ)
  let s := n.natAbs
  let ip := s / 10 ^ digits
  let fp := s % 10 ^ digits
  let fpStr := toString fp
  let pad := String.mk (List.replicate (digits - fpStr.length) '0')
  (if n < 0 then "-" else "")
    ++ toString ip
    ++ (if digits = 0 then "" else "." ++ pad ++ fpStr)

/-- The body of the per-target goroutine in `monitorHealthAndMetrics`
(lines 67–129): staged evaluation of one target.  `now` is
`time.Now().Format("15:04")`; `healthResult` and `metricsResult` are the
outcomes the two fetch capabilities would return.  Returns the list of
`handleAlert` invocations made (in order) and whether control reached the
metrics fetch (`monitor.GetMetrics`). -/
def monitorTarget (cfg : MonitorConfig) (now baseUrl : String)
    (healthResult : Except HealthError String)
    (metricsResult : Except String Metrics) :
    List AlertDecision × Bool :=
  match healthResult with
  | .error .errNoActuatorSupport =>
      ([⟨baseUrl, "[" ++ now ++ "] No actuator support for: " ++ baseUrl ++ "/actuator",
         true, true⟩], false)
  | .error .errNotResponding =>
      ([⟨baseUrl, "[" ++ now ++ "] No response from app. Attention required!",
         true, true⟩], false)
  | .error (.otherErr errText) =>
      ([⟨baseUrl, "[" ++ now ++ "] Failed to get health status: " ++ errText,
         true, true⟩], false)
  | .ok status =>
      if status ≠ Up then
        ([⟨baseUrl, "[" ++ now ++ "] Health Status: " ++ status ++ ". Attention required!",
           true, true⟩], false)
      else
        match metricsResult with
        | .error errText =>
            ([⟨baseUrl, "[" ++ now ++ "] Health status: " ++ status
                ++ ". Failed to get metrics: " ++ errText,
               false, false⟩], true)
        | .ok metrics =>
            let exceededCpuUsageThreshold :=
              metrics.CpuUsage * metrics.CpuCount > (cfg.CpuUsageWarnThreshold : ℚ)
            let exceededJvmUsageThreshold :=
              metrics.MemoryTotal > 0 ∧
                (metrics.MemoryUsed / metrics.MemoryTotal) * 100
                  > (cfg.JvmUsageWarnThreshold : ℚ)
            if exceededCpuUsageThreshold ∨ exceededJvmUsageThreshold then
              ([⟨baseUrl, "[" ++ now ++ "] Attention required! CPU: "
                  ++ fmtFixed 2 (metrics.CpuUsage * metrics.CpuCount)
                  ++ "%, JVM: " ++ fmtFixed 1 metrics.MemoryUsed
                  ++ "/" ++ fmtFixed 1 metrics.MemoryTotal ++ " GB",
                 true, true⟩], true)
            else
              ([⟨baseUrl, "[" ++ now ++ "] CPU: "
                  ++ fmtFixed 2 (metrics.CpuUsage * metrics.CpuCount)
                  ++ "%, JVM: " ++ fmtFixed 1 metrics.MemoryUsed
                  ++ "/" ++ fmtFixed 1 metrics.MemoryTotal ++ " GB",
                 false, false⟩], true)

/-- `handleAlert` (lines 138–159) as the list of external actions it invokes.
`notifyOk` models whether the critical `notify-send` command succeeded, which
alone gates playing the alert sound. -/
def handleAlert (cfg : MonitorConfig) (notifyOk : Bool)
    (appBaseUrl msgContent : String) (isAlert sendMail : Bool) :
    List DispatchAction :=
  (if cfg.IsDesktopAlertsEnabled then
    if !isAlert then
      [.notifySend "normal" cfg.AppLogoPath appBaseUrl msgContent]
    else
      .notifySend "critical" cfg.AppLogoPath appBaseUrl msgContent ::
        (if notifyOk then [.playAlertSound cfg.AlertSoundPath] else [])
  else []) ++
  (if cfg.IsEmailAlertsEnabled && sendMail then
    [.sendEmail cfg.EmailReceipients
      ("Spring Boot App Monitor - " ++ appBaseUrl) msgContent]
  else [])

/-- Per-target record of one monitoring cycle: the target URL, the
`handleAlert` invocations its goroutine made, whether its metrics were
fetched, and the dispatch actions those invocations performed. -/
structure TargetReport where
  target : String
  decisions : List AlertDecision
  metricsFetched : Bool
  dispatched : List DispatchAction
deriving DecidableEq, Repr

/-- One cycle of `monitorHealthAndMetrics` (lines 58–136): if the
connectivity probe (`hasInternetConnection`) failed, the cycle is skipped
with no evaluation and no dispatch; otherwise every configured URL is
evaluated.  `healthOf`/`metricsOf`/`notifyOkOf` give, per target, the fetch
outcomes and the desktop-notification success this cycle would observe. -/
def monitorHealthAndMetrics (cfg : MonitorConfig) (hasConn : Bool)
    (now : String)
    (healthOf : String → Except HealthError String)
    (metricsOf : String → Except String Metrics)
    (notifyOkOf : String → Bool) : List TargetReport :=
  if !hasConn then []
  else
    cfg.UrlsToMonitor.map fun baseUrl =>
      let r := monitorTarget cfg now baseUrl (healthOf baseUrl) (metricsOf baseUrl)
      { target := baseUrl
        decisions := r.1
        metricsFetched := r.2
        dispatched := r.1.foldr
          (fun d acc =>
            handleAlert cfg (notifyOkOf baseUrl) d.target d.msgContent
              d.isAlert d.sendMail ++ acc) [] }

/-- `hay` contains `needle` as a contiguous substring. -/
def containsStr (hay needle : String) : Prop :=
  ∃ p q, hay = p ++ needle ++ q

/-- Every control-flow path of the per-target goroutine makes exactly one
`handleAlert` call. -/
theorem monitorTarget_one_decision (cfg : MonitorConfig) (now baseUrl : String)
    (healthResult : Except HealthError String)
    (metricsResult : Except String Metrics) :
    (monitorTarget cfg now baseUrl healthResult metricsResult).1.length = 1 := by
  rcases healthResult with e | s
  · cases e <;> rfl
  · by_cases hs : s ≠ Up
    · simp [monitorTarget, hs]
    · rcases metricsResult with errText | m
      · simp [monitorTarget, hs]
      · simp only [monitorTarget, if_neg hs]
        split <;> simp

/-- C1: if the health fetch returns an error (`NoActuatorSupport`,
`NotResponding`, or any other error), the metrics fetch is never reached —
the result does not depend on the metrics outcome at all — and the single
produced decision has `isAlert = true` and `sendMail = true`. -/
theorem healthError_alerts_and_skips_metrics (cfg : MonitorConfig)
    (now baseUrl : String) (e : HealthError)
    (metricsResult metricsResult' : Except String Metrics) :
    (monitorTarget cfg now baseUrl (.error e) metricsResult).2 = false ∧
    monitorTarget cfg now baseUrl (.error e) metricsResult =
      monitorTarget cfg now baseUrl (.error e) metricsResult' ∧
    ∃ d, (monitorTarget cfg now baseUrl (.error e) metricsResult).1 = [d] ∧
      d.isAlert = true ∧ d.sendMail = true := by
  cases e <;> simp [monitorTarget]

/-- C2: if the health fetch succeeds with a status other than `Up`, the
produced decision is critical and mail-worthy, its message contains the
literal status value, and the metrics fetch is never reached (the result
does not depend on the metrics outcome). -/
theorem nonUpStatus_alerts_and_skips_metrics (cfg : MonitorConfig)
    (now baseUrl status : String)
    (metricsResult metricsResult' : Except String Metrics)
    (h : status ≠ Up) :
    (monitorTarget cfg now baseUrl (.ok status) metricsResult).2 = false ∧
    monitorTarget cfg now baseUrl (.ok status) metricsResult =
      monitorTarget cfg now baseUrl (.ok status) metricsResult' ∧
    ∃ d, (monitorTarget cfg now baseUrl (.ok status) metricsResult).1 = [d] ∧
      d.isAlert = true ∧ d.sendMail = true ∧ containsStr d.msgContent status := by
  refine ⟨by simp [monitorTarget, h], by simp [monitorTarget, h],
    ⟨baseUrl, "[" ++ now ++ "] Health Status: " ++ status ++ ". Attention required!",
      true, true⟩,
    by simp [monitorTarget, h], rfl, rfl, ?_⟩
  exact ⟨"[" ++ now ++ "] Health Status: ", ". Attention required!",
    by simp [String.append_assoc]⟩

/-- C3: if health is `Up` and the metrics fetch fails, the single produced
decision has `isAlert = false` and `sendMail = false`, and its message
contains both the health status and the metrics error text. -/
theorem metricsError_decision_informational (cfg : MonitorConfig)
    (now baseUrl errText : String) :
    (monitorTarget cfg now baseUrl (.ok Up) (.error errText)).2 = true ∧
    ∃ d, (monitorTarget cfg now baseUrl (.ok Up) (.error errText)).1 = [d] ∧
      d.isAlert = false ∧ d.sendMail = false ∧
      containsStr d.msgContent Up ∧ containsStr d.msgContent errText := by
  refine ⟨by simp [monitorTarget], ⟨baseUrl,
      "[" ++ now ++ "] Health status: " ++ Up ++ ". Failed to get metrics: " ++ errText,
      false, false⟩,
    by simp [monitorTarget], rfl, rfl, ?_, ?_⟩
  · exact ⟨"[" ++ now ++ "] Health status: ",
      ". Failed to get metrics: " ++ errText, by simp [String.append_assoc]⟩
  · exact ⟨"[" ++ now ++ "] Health status: " ++ Up ++ ". Failed to get metrics: ",
      "", by simp [String.append_assoc]⟩

/-- C4: with health `Up`, a successful metrics fetch and `MemoryTotal ≤ 0`,
the memory-threshold test is skipped — its `MemoryTotal > 0` guard fails, so
the division is short-circuited away — and whether the single produced
decision is critical depends only on the CPU threshold check. -/
theorem memoryGuard_decision_depends_only_on_cpu (cfg : MonitorConfig)
    (now baseUrl : String) (m : Metrics) (h : m.MemoryTotal ≤ 0) :
    ¬ (m.MemoryTotal > 0 ∧
        (m.MemoryUsed / m.MemoryTotal) * 100 > (cfg.JvmUsageWarnThreshold : ℚ)) ∧
    (monitorTarget cfg now baseUrl (.ok Up) (.ok m)).2 = true ∧
    ∃ d, (monitorTarget cfg now baseUrl (.ok Up) (.ok m)).1 = [d] ∧
      (d.isAlert = true ↔
        m.CpuUsage * m.CpuCount > (cfg.CpuUsageWarnThreshold : ℚ)) ∧
      d.sendMail = d.isAlert := by
  have hmem : ¬ (m.MemoryTotal > 0 ∧
      (m.MemoryUsed / m.MemoryTotal) * 100 > (cfg.JvmUsageWarnThreshold : ℚ)) :=
    fun hj => absurd hj.1 (not_lt.mpr h)
  refine ⟨hmem, by simp only [monitorTarget]; simp; split <;> rfl, ?_⟩
  by_cases hc : m.CpuUsage * m.CpuCount > (cfg.CpuUsageWarnThreshold : ℚ)
  · refine ⟨⟨baseUrl, "[" ++ now ++ "] Attention required! CPU: "
        ++ fmtFixed 2 (m.CpuUsage * m.CpuCount) ++ "%, JVM: "
        ++ fmtFixed 1 m.MemoryUsed ++ "/" ++ fmtFixed 1 m.MemoryTotal ++ " GB",
      true, true⟩, ?_, by simp [hc], rfl⟩
    simp [monitorTarget, hc]
  · refine ⟨⟨baseUrl, "[" ++ now ++ "] CPU: "
        ++ fmtFixed 2 (m.CpuUsage * m.CpuCount) ++ "%, JVM: "
        ++ fmtFixed 1 m.MemoryUsed ++ "/" ++ fmtFixed 1 m.MemoryTotal ++ " GB",
      false, false⟩, ?_, by simp [hc], rfl⟩
    simp [monitorTarget, hc, hmem]

/-- C10: every decision the per-target evaluation produces has equal routing
flags — `isAlert = sendMail` on every path, so only the combinations
`(true, true)` and `(false, false)` are reachable. -/
theorem decision_flags_agree (cfg : MonitorConfig) (now baseUrl : String)
    (healthResult : Except HealthError String)
    (metricsResult : Except String Metrics) :
    ((monitorTarget cfg now baseUrl healthResult metricsResult).1.all
      fun d => d.isAlert == d.sendMail) = true := by
  rcases healthResult with e | s
  · cases e <;> rfl
  · by_cases hs : s ≠ Up
    · simp [monitorTarget, hs]
    · rcases metricsResult with errText | m
      · simp [monitorTarget, hs]
      · simp only [monitorTarget, if_neg hs]
        split <;> simp

/-- C7: when the connectivity probe fails, the whole cycle is skipped — no
target is evaluated, no decision is produced and no dispatch action (desktop
or mail) is performed. -/
theorem connectivityFailure_skips_cycle (cfg : MonitorConfig) (now : String)
    (healthOf : String → Except HealthError String)
    (metricsOf : String → Except String Metrics)
    (notifyOkOf : String → Bool) :
    monitorHealthAndMetrics cfg false now healthOf metricsOf notifyOkOf = [] ∧
    ((monitorHealthAndMetrics cfg false now healthOf metricsOf notifyOkOf).foldr
      (fun r acc => r.dispatched ++ acc) []) = [] :=
  ⟨rfl, rfl⟩

/-- C6: in a cycle that passes the connectivity gate, every configured
target is evaluated exactly once (one report per configured URL, in order)
and each evaluation makes exactly one `handleAlert` invocation — never zero,
never more than one, including on full success. -/
theorem one_decision_per_target_per_cycle (cfg : MonitorConfig) (now : String)
    (healthOf : String → Except HealthError String)
    (metricsOf : String → Except String Metrics)
    (notifyOkOf : String → Bool) :
    ((monitorHealthAndMetrics cfg true now healthOf metricsOf notifyOkOf).map
        TargetReport.target = cfg.UrlsToMonitor) ∧
    ∀ r ∈ monitorHealthAndMetrics cfg true now healthOf metricsOf notifyOkOf,
      r.decisions.length = 1 := by
  constructor
  · simp only [monitorHealthAndMetrics, Bool.not_true, Bool.false_eq_true,
      if_false, List.map_map]
    have hid : (TargetReport.target ∘ fun baseUrl =>
        ({ target := baseUrl
           decisions := (monitorTarget cfg now baseUrl (healthOf baseUrl) (metricsOf baseUrl)).1
           metricsFetched := (monitorTarget cfg now baseUrl (healthOf baseUrl) (metricsOf baseUrl)).2
           dispatched := List.foldr
             (fun d acc => handleAlert cfg (notifyOkOf baseUrl) d.target d.msgContent
               d.isAlert d.sendMail ++ acc) []
             (monitorTarget cfg now baseUrl (healthOf baseUrl) (metricsOf baseUrl)).1 } :
          TargetReport)) = id := rfl
    rw [hid, List.map_id]
  · intro r hr
    simp only [monitorHealthAndMetrics, Bool.not_true, Bool.false_eq_true,
      if_false, List.mem_map] at hr
    obtain ⟨u, _, rfl⟩ := hr
    simpa using monitorTarget_one_decision cfg now u (healthOf u) (metricsOf u)

/-- C5 counterexample: with CPU threshold 80, health `Up`, a successful
metrics fetch, `CpuUsage = 0.5` and `CpuCount = 2`, the derived value
`CpuUsage * CpuCount` is `1`, not `100`, and with memory values that do not
breach the memory threshold the produced decision is informational — so the
decision is not critical "regardless of the memory values". -/
theorem cpuScenario_claim_counterexample :
    ((1 : ℚ) / 2) * 2 = 1 ∧
    ((monitorTarget
        ⟨"logo", "conn", "snd", ["http://a"], 60000000000, 80, 75, ["ops"], true, true⟩
        "10:00" "http://a" (.ok Up)
        (.ok ⟨1/2, 2, 0, 0⟩)).1.map AlertDecision.isAlert = [false]) := by
  constructor
  · norm_num
  · norm_num [monitorTarget, Up, fmtFixed, roundHalfEven]

/-- C5 (amended): with CPU threshold 80, health `Up`, a successful metrics
fetch, `CpuUsage = 0.5` and `CpuCount = 2`, the derived value
`CpuUsage * CpuCount` equals `1`, which does not exceed the threshold 80, so
the CPU check does not trigger; the single produced decision is critical
(`isAlert = true`, `sendMail = true`) exactly when the memory check
triggers. -/
theorem cpuHalfTimesTwo_not_critical (cfg : MonitorConfig)
    (now baseUrl : String) (m : Metrics)
    (hthr : cfg.CpuUsageWarnThreshold = 80)
    (hcpu : m.CpuUsage = 1/2) (hcnt : m.CpuCount = 2) :
    m.CpuUsage * m.CpuCount = 1 ∧
    ¬ m.CpuUsage * m.CpuCount > (cfg.CpuUsageWarnThreshold : ℚ) ∧
    ∃ d, (monitorTarget cfg now baseUrl (.ok Up) (.ok m)).1 = [d] ∧
      (d.isAlert = true ↔ (m.MemoryTotal > 0 ∧
        (m.MemoryUsed / m.MemoryTotal) * 100 > (cfg.JvmUsageWarnThreshold : ℚ))) ∧
      d.sendMail = d.isAlert := by
  have h1 : m.CpuUsage * m.CpuCount = 1 := by rw [hcpu, hcnt]; norm_num
  have h2 : ¬ m.CpuUsage * m.CpuCount > (cfg.CpuUsageWarnThreshold : ℚ) := by
    rw [h1, hthr]; norm_num
  refine ⟨h1, h2, ?_⟩
  by_cases hj : m.MemoryTotal > 0 ∧
      (m.MemoryUsed / m.MemoryTotal) * 100 > (cfg.JvmUsageWarnThreshold : ℚ)
  · refine ⟨⟨baseUrl, "[" ++ now ++ "] Attention required! CPU: "
        ++ fmtFixed 2 (m.CpuUsage * m.CpuCount) ++ "%, JVM: "
        ++ fmtFixed 1 m.MemoryUsed ++ "/" ++ fmtFixed 1 m.MemoryTotal ++ " GB",
      true, true⟩, ?_, by simp [hj], rfl⟩
    simp [monitorTarget, hj]
  · refine ⟨⟨baseUrl, "[" ++ now ++ "] CPU: "
        ++ fmtFixed 2 (m.CpuUsage * m.CpuCount) ++ "%, JVM: "
        ++ fmtFixed 1 m.MemoryUsed ++ "/" ++ fmtFixed 1 m.MemoryTotal ++ " GB",
      false, false⟩, ?_, by simp [hj], rfl⟩
    simp [monitorTarget, hj, h2]

/-- C8: when desktop alerts are disabled and e-mail alerts are enabled, a
critical decision (`isAlert = true`, `sendMail = true`) performs no desktop
notification and no sound playback, and sends exactly one mail with the
configured recipients and the `"Spring Boot App Monitor - <url>"` subject. -/
theorem disabledDesktop_enabledMail_critical_dispatch (cfg : MonitorConfig)
    (notifyOk : Bool) (appBaseUrl msgContent : String)
    (hd : cfg.IsDesktopAlertsEnabled = false)
    (he : cfg.IsEmailAlertsEnabled = true) :
    handleAlert cfg notifyOk appBaseUrl msgContent true true =
      [.sendEmail cfg.EmailReceipients
        ("Spring Boot App Monitor - " ++ appBaseUrl) msgContent] := by
  simp [handleAlert, hd, he]

/-- C9 counterexample: threshold evaluation is not a function of the
configured thresholds and the metrics alone — evaluating the very same
configuration and `Metrics` value at two different clock readings produces
different decisions, because the message embeds the current time. -/
theorem thresholdEval_message_depends_on_clock :
    monitorTarget
        ⟨"logo", "conn", "snd", ["http://a"], 60000000000, 80, 75, ["ops"], true, true⟩
        "10:00" "http://a" (.ok Up) (.ok ⟨1, 1, 0, 0⟩) ≠
    monitorTarget
        ⟨"logo", "conn", "snd", ["http://a"], 60000000000, 80, 75, ["ops"], true, true⟩
        "10:01" "http://a" (.ok Up) (.ok ⟨1, 1, 0, 0⟩) := by
  norm_num [monitorTarget, Up, fmtFixed, roundHalfEven]
  decide

/-- C9 (amended): threshold evaluation is deterministic and pure given the
clock reading: the routing flags and the message of the produced decision
are a function of the two configured thresholds, the `Metrics` value and the
formatted timestamp alone (in particular they are independent of every other
configuration field and of the target URL). -/
theorem thresholdEval_pure_in_thresholds_metrics_time
    (cfg cfg' : MonitorConfig) (now baseUrl baseUrl' : String) (m : Metrics)
    (h1 : cfg.CpuUsageWarnThreshold = cfg'.CpuUsageWarnThreshold)
    (h2 : cfg.JvmUsageWarnThreshold = cfg'.JvmUsageWarnThreshold) :
    ∃ d d', (monitorTarget cfg now baseUrl (.ok Up) (.ok m)).1 = [d] ∧
      (monitorTarget cfg' now baseUrl' (.ok Up) (.ok m)).1 = [d'] ∧
      d.isAlert = d'.isAlert ∧ d.sendMail = d'.sendMail ∧
      d.msgContent = d'.msgContent := by
  by_cases hc : m.CpuUsage * m.CpuCount > (cfg.CpuUsageWarnThreshold : ℚ) ∨
      (m.MemoryTotal > 0 ∧
        (m.MemoryUsed / m.MemoryTotal) * 100 > (cfg.JvmUsageWarnThreshold : ℚ))
  · have hc' : m.CpuUsage * m.CpuCount > (cfg'.CpuUsageWarnThreshold : ℚ) ∨
        (m.MemoryTotal > 0 ∧
          (m.MemoryUsed / m.MemoryTotal) * 100 > (cfg'.JvmUsageWarnThreshold : ℚ)) := by
      rw [← h1, ← h2]; exact hc
    refine ⟨⟨baseUrl, "[" ++ now ++ "] Attention required! CPU: "
        ++ fmtFixed 2 (m.CpuUsage * m.CpuCount) ++ "%, JVM: "
        ++ fmtFixed 1 m.MemoryUsed ++ "/" ++ fmtFixed 1 m.MemoryTotal ++ " GB",
      true, true⟩,
      ⟨baseUrl', "[" ++ now ++ "] Attention required! CPU: "
        ++ fmtFixed 2 (m.CpuUsage * m.CpuCount) ++ "%, JVM: "
        ++ fmtFixed 1 m.MemoryUsed ++ "/" ++ fmtFixed 1 m.MemoryTotal ++ " GB",
      true, true⟩, ?_, ?_, rfl, rfl, rfl⟩
    · simp [monitorTarget, hc]
    · simp [monitorTarget, hc']
  · have hc' : ¬ (m.CpuUsage * m.CpuCount > (cfg'.CpuUsageWarnThreshold : ℚ) ∨
        (m.MemoryTotal > 0 ∧
          (m.MemoryUsed / m.MemoryTotal) * 100 > (cfg'.JvmUsageWarnThreshold : ℚ))) := by
      rw [← h1, ← h2]; exact hc
    refine ⟨⟨baseUrl, "[" ++ now ++ "] CPU: "
        ++ fmtFixed 2 (m.CpuUsage * m.CpuCount) ++ "%, JVM: "
        ++ fmtFixed 1 m.MemoryUsed ++ "/" ++ fmtFixed 1 m.MemoryTotal ++ " GB",
      false, false⟩,
      ⟨baseUrl', "[" ++ now ++ "] CPU: "
        ++ fmtFixed 2 (m.CpuUsage * m.CpuCount) ++ "%, JVM: "
        ++ fmtFixed 1 m.MemoryUsed ++ "/" ++ fmtFixed 1 m.MemoryTotal ++ " GB",
      false, false⟩, ?_, ?_, rfl, rfl, rfl⟩
    · simp only [monitorTarget]
      simp [if_neg hc]
    · simp only [monitorTarget]
      simp [if_neg hc']

/-- A sample configuration (desktop and mail channels enabled) used to
instantiate the universally quantified theorems at concrete inputs. -/
def sampleConfig : MonitorConfig :=
  ⟨"logo.png", "https://www.google.com", "alert.wav", ["http://a"],
    60000000000, 80, 75, ["ops@example.com"], true, true⟩

/-- A sample configuration with desktop alerts disabled and mail alerts
enabled. -/
def sampleConfigNoDesktop : MonitorConfig :=
  ⟨"logo.png", "https://www.google.com", "alert.wav", ["http://a"],
    60000000000, 80, 75, ["ops@example.com"], false, true⟩

/-- A sample configuration with both dispatch channels disabled. -/
def sampleConfigQuiet : MonitorConfig :=
  ⟨"logo.png", "https://www.google.com", "alert.wav", ["http://a"],
    60000000000, 80, 75, ["ops@example.com"], false, false⟩

/-- A sample health fetch outcome: every target reports `Up`. -/
def sampleHealthOf : String → Except HealthError String := fun _ => .ok Up

/-- A sample metrics fetch outcome: every fetch fails. -/
def sampleMetricsOf : String → Except String Metrics :=
  fun _ => .error "connection refused"

/-- A sample desktop-notification outcome: every `notify-send` succeeds. -/
def sampleNotifyOk : String → Bool := fun _ => true

/-- Witness for C2 at the concrete non-Up status `"DOWN"`. -/
theorem nonUpStatus_alerts_witness :
    (("DOWN" : String) ≠ Up) ∧
    ((monitorTarget sampleConfig "10:00" "http://a" (.ok "DOWN")
        (.error "x")).2 = false ∧
      monitorTarget sampleConfig "10:00" "http://a" (.ok "DOWN") (.error "x") =
        monitorTarget sampleConfig "10:00" "http://a" (.ok "DOWN")
          (.ok ⟨1, 1, 1, 1⟩) ∧
      ∃ d, (monitorTarget sampleConfig "10:00" "http://a" (.ok "DOWN")
          (.error "x")).1 = [d] ∧
        d.isAlert = true ∧ d.sendMail = true ∧ containsStr d.msgContent "DOWN") :=
  ⟨by decide,
    nonUpStatus_alerts_and_skips_metrics sampleConfig "10:00" "http://a" "DOWN"
      (.error "x") (.ok ⟨1, 1, 1, 1⟩) (by decide)⟩

/-- Witness for C4 at concrete metrics with `MemoryTotal = 0`. -/
theorem memoryGuard_witness :
    ((⟨100, 1, 5, 0⟩ : Metrics).MemoryTotal ≤ 0) ∧
    (¬ ((⟨100, 1, 5, 0⟩ : Metrics).MemoryTotal > 0 ∧
        ((⟨100, 1, 5, 0⟩ : Metrics).MemoryUsed /
            (⟨100, 1, 5, 0⟩ : Metrics).MemoryTotal) * 100 >
          (sampleConfig.JvmUsageWarnThreshold : ℚ)) ∧
      (monitorTarget sampleConfig "10:00" "http://a" (.ok Up)
        (.ok ⟨100, 1, 5, 0⟩)).2 = true ∧
      ∃ d, (monitorTarget sampleConfig "10:00" "http://a" (.ok Up)
          (.ok ⟨100, 1, 5, 0⟩)).1 = [d] ∧
        (d.isAlert = true ↔
          (⟨100, 1, 5, 0⟩ : Metrics).CpuUsage * (⟨100, 1, 5, 0⟩ : Metrics).CpuCount >
            (sampleConfig.CpuUsageWarnThreshold : ℚ)) ∧
        d.sendMail = d.isAlert) :=
  ⟨by decide,
    memoryGuard_decision_depends_only_on_cpu sampleConfig "10:00" "http://a"
      ⟨100, 1, 5, 0⟩ (by decide)⟩

/-- Witness for C5 (amended) at concrete metrics whose memory check
triggers. -/
theorem cpuHalfTimesTwo_witness :
    sampleConfig.CpuUsageWarnThreshold = 80 ∧
    (⟨1/2, 2, 16/5, 4⟩ : Metrics).CpuUsage = 1/2 ∧
    (⟨1/2, 2, 16/5, 4⟩ : Metrics).CpuCount = 2 ∧
    ((⟨1/2, 2, 16/5, 4⟩ : Metrics).CpuUsage *
        (⟨1/2, 2, 16/5, 4⟩ : Metrics).CpuCount = 1 ∧
      ¬ (⟨1/2, 2, 16/5, 4⟩ : Metrics).CpuUsage *
          (⟨1/2, 2, 16/5, 4⟩ : Metrics).CpuCount >
        (sampleConfig.CpuUsageWarnThreshold : ℚ) ∧
      ∃ d, (monitorTarget sampleConfig "10:00" "http://a" (.ok Up)
          (.ok ⟨1/2, 2, 16/5, 4⟩)).1 = [d] ∧
        (d.isAlert = true ↔ ((⟨1/2, 2, 16/5, 4⟩ : Metrics).MemoryTotal > 0 ∧
          ((⟨1/2, 2, 16/5, 4⟩ : Metrics).MemoryUsed /
              (⟨1/2, 2, 16/5, 4⟩ : Metrics).MemoryTotal) * 100 >
            (sampleConfig.JvmUsageWarnThreshold : ℚ))) ∧
        d.sendMail = d.isAlert) :=
  ⟨rfl, rfl, rfl,
    cpuHalfTimesTwo_not_critical sampleConfig "10:00" "http://a"
      ⟨1/2, 2, 16/5, 4⟩ rfl rfl rfl⟩

/-- Witness for C6 at a concrete one-target cycle whose metrics fetch
fails. -/
theorem one_decision_witness :
    ((monitorHealthAndMetrics sampleConfigQuiet true "10:00" sampleHealthOf
        sampleMetricsOf sampleNotifyOk).map TargetReport.target = ["http://a"]) ∧
    (⟨"http://a",
        [⟨"http://a",
          "[10:00] Health status: UP. Failed to get metrics: connection refused",
          false, false⟩], true, []⟩ : TargetReport).decisions.length = 1 :=
  ⟨(one_decision_per_target_per_cycle sampleConfigQuiet "10:00" sampleHealthOf
      sampleMetricsOf sampleNotifyOk).1,
    (one_decision_per_target_per_cycle sampleConfigQuiet "10:00" sampleHealthOf
      sampleMetricsOf sampleNotifyOk).2
      ⟨"http://a",
        [⟨"http://a",
          "[10:00] Health status: UP. Failed to get metrics: connection refused",
          false, false⟩], true, []⟩ (by decide)⟩

/-- Witness for C8 at a concrete critical decision. -/
theorem disabledDesktop_witness :
    sampleConfigNoDesktop.IsDesktopAlertsEnabled = false ∧
    sampleConfigNoDesktop.IsEmailAlertsEnabled = true ∧
    handleAlert sampleConfigNoDesktop true "http://a" "critical issue" true true =
      [.sendEmail sampleConfigNoDesktop.EmailReceipients
        ("Spring Boot App Monitor - " ++ "http://a") "critical issue"] :=
  ⟨rfl, rfl,
    disabledDesktop_enabledMail_critical_dispatch sampleConfigNoDesktop true
      "http://a" "critical issue" rfl rfl⟩

/-- Witness for C9 (amended) at two configurations sharing only their
thresholds and at two different target URLs. -/
theorem thresholdEval_pure_witness :
    sampleConfig.CpuUsageWarnThreshold = sampleConfigQuiet.CpuUsageWarnThreshold ∧
    sampleConfig.JvmUsageWarnThreshold = sampleConfigQuiet.JvmUsageWarnThreshold ∧
    ∃ d d', (monitorTarget sampleConfig "10:00" "http://a" (.ok Up)
        (.ok ⟨1, 1, 0, 0⟩)).1 = [d] ∧
      (monitorTarget sampleConfigQuiet "10:00" "http://b" (.ok Up)
        (.ok ⟨1, 1, 0, 0⟩)).1 = [d'] ∧
      d.isAlert = d'.isAlert ∧ d.sendMail = d'.sendMail ∧
      d.msgContent = d'.msgContent :=
  ⟨rfl, rfl,
    thresholdEval_pure_in_thresholds_metrics_time sampleConfig sampleConfigQuiet
      "10:00" "http://a" "http://b" ⟨1, 1, 0, 0⟩ rfl rfl⟩

end SpringBootAppMonitor
